import Mathlib

/-!
Verification of the ANLP-Mailsense email classification pipeline
(src/mail_classifier.py and src/interface.py) against its specification.

The Python pipeline is shallowly embedded.  The external NLTK resources
(the word tokenizer, the WordNet lemmatizer, the English stopword list)
and the four pickled sklearn estimators (two vectorizers, two models)
are parameters of the embedding, while every piece of logic written in
the repository itself — the preprocessing steps, the spam gate, the
probability thresholding, the numpy argmax fallback, the label decoding
over the fixed ten-class schema, the asset-loading sequence and the
endpoint dispatch — is translated statement by statement.
-/

namespace Mailsense

/-- A Python runtime value handed to the preprocessor.  The source checks
isinstance(text, str) at mail_classifier.py line 105 and treats every
non-string value uniformly, so non-string values are represented by the
remaining constructors. -/
inductive PyValue where
  | str (s : String)
  | int (n : Int)
  | none
  | list (elems : List String)

/-- The isinstance(text, str) test from mail_classifier.py line 105. -/
def PyValue.isStr : PyValue → Bool
  | PyValue.str _ => true
  | _ => false

/-- ASCII whitespace characters matched by the regex class used at
mail_classifier.py line 110. -/
def isPySpace (c : Char) : Bool :=
  c == ' ' || c == '\t' || c == '\n' || c == '\r' || c == '\x0b' || c == '\x0c'

/-- One character of text.lower() (mail_classifier.py line 108),
restricted to the ASCII range, which is the only range the subsequent
regex keeps anyway. -/
def pyLowerChar (c : Char) : Char :=
  if 'A' ≤ c ∧ c ≤ 'Z' then Char.ofNat (c.toNat + 32) else c

/-- text.lower() from mail_classifier.py line 108. -/
def pyLowerStr (s : String) : String := String.mk (s.data.map pyLowerChar)

/-- One character of the substitution at mail_classifier.py line 110:
every character that is not a lowercase ASCII letter, a digit or
whitespace is replaced by a single space. -/
def cleanChar (c : Char) : Char :=
  if ('a' ≤ c ∧ c ≤ 'z') ∨ ('0' ≤ c ∧ c ≤ '9') ∨ isPySpace c = true then c else ' '

/-- The substitution at mail_classifier.py line 110, applied to the
whole string character by character (the regex replaces single
characters, so it is a character map). -/
def cleanText (s : String) : String := String.mk (s.data.map cleanChar)

/-- The fixed ten-label schema, mail_classifier.py lines 43 to 54, in
source order. -/
def MULTILABEL_CLASSES : List String :=
  ["Business",
   "Reminders",
   "Events & Invitations",
   "Finance & Bills",
   "Travel & Bookings",
   "Customer Support",
   "Newsletters",
   "Personal",
   "Job Application",
   "Promotions"]

/-- The threshold constant 0.30 from mail_classifier.py line 145,
written with mkRat so that comparisons against it evaluate inside the
kernel; the theorem THRESHOLD_eq below identifies it with 3 / 10. -/
def THRESHOLD : ℚ := mkRat 3 10

/-- One row of the thresholding at mail_classifier.py line 147:
(y_pred_proba >= THRESHOLD).astype(int). -/
def threshRow (probs : List ℚ) : List Nat :=
  probs.map (fun p => if THRESHOLD ≤ p then 1 else 0)

/-- numpy argmax over one row: the index of the first occurrence of the
maximum value, which is the documented numpy tie-break.  On an empty row
numpy raises; the 0 returned here is never reached in the pipeline
because probability rows have length ten. -/
def npArgmax : List ℚ → Nat
  | [] => 0
  | p :: ps =>
    if ps.isEmpty then 0
    else if p < ps.getD (npArgmax ps) 0 then npArgmax ps + 1 else 0

/-- The fallback block at mail_classifier.py lines 150 to 156,
specialised to the single row the pipeline produces: if no entry passed
the threshold, the entry at the argmax of the probability row is set
to one. -/
def labelRow (probs : List ℚ) : List Nat :=
  if (threshRow probs).sum = 0 then (threshRow probs).set (npArgmax probs) 1 else threshRow probs

/-- The list comprehension at mail_classifier.py lines 159 to 161,
written as a recursion carrying the enumerate index: every position
holding a one contributes the class name at that position. -/
def labelsFrom : Nat → List Nat → List String
  | _, [] => []
  | i, v :: vs =>
    if v = 1 then MULTILABEL_CLASSES.getD i "" :: labelsFrom (i + 1) vs
    else labelsFrom (i + 1) vs

/-- The complete thresholding, fallback and decoding step applied to one
probability row (mail_classifier.py lines 145 to 161). -/
def predictedLabels (probs : List ℚ) : List String :=
  labelsFrom 0 (labelRow probs)

/-- The classifier together with its external resources.  tokenize is
nltk.word_tokenize, lemmatize is WordNetLemmatizer.lemmatize, stop_words
is the NLTK English stopword list; spam_vec and ml_vec are the two
fitted vectorizers applied to one tokenized document, spam_clf is the
spam model prediction on one feature vector (label 1 means Spam) and
ml_clf_proba is the multilabel model probability row for one feature
vector. -/
structure EmailClassifier (φ χ : Type) where
  tokenize : String → List String
  lemmatize : String → String
  stop_words : List String
  spam_vec : List String → φ
  spam_clf : φ → Nat
  ml_vec : List String → χ
  ml_clf_proba : χ → List ℚ

/-- EmailClassifier._preprocess_email, mail_classifier.py lines 100 to
120: non-strings yield the empty list; strings are lowercased, cleaned,
tokenized, filtered by stopwords and by length greater than two, and
finally lemmatized. -/
def EmailClassifier.preprocessEmail {φ χ : Type} (c : EmailClassifier φ χ)
    (text : PyValue) : List String :=
  match text with
  | PyValue.str s =>
    ((c.tokenize (cleanText (pyLowerStr s))).filter
      (fun tok => decide (¬ tok ∈ c.stop_words ∧ 2 < tok.length))).map c.lemmatize
  | _ => []

/-- The terminal artifact of one classification call,
mail_classifier.py lines 134 to 135 and 163 to 166. -/
structure ClassificationResult where
  primary_classification : String
  detailed_labels : List String
deriving DecidableEq

/-- EmailClassifier.classify, mail_classifier.py lines 122 to 166:
preprocess once, decide spam; on spam return immediately with no
labels, otherwise run the multilabel stage and decode the labels. -/
def EmailClassifier.classify {φ χ : Type} (c : EmailClassifier φ χ)
    (email_text : PyValue) : ClassificationResult :=
  if c.spam_clf (c.spam_vec (c.preprocessEmail email_text)) = 1 then
    ⟨"Spam", []⟩
  else
    ⟨"No-Spam", predictedLabels (c.ml_clf_proba (c.ml_vec (c.preprocessEmail email_text)))⟩

/-- Outcome of opening and unpickling one asset file: found, or the open
raised FileNotFoundError, or the open or the unpickling raised some
other exception. -/
inductive ReadResult (α : Type) where
  | found (a : α)
  | notFound
  | readError
deriving DecidableEq

/-- The four loaded assets stored on the classifier instance
(mail_classifier.py lines 83 to 92). -/
structure LoadedAssets (α : Type) where
  spam_vec : α
  spam_clf : α
  ml_vec : α
  ml_clf : α
deriving DecidableEq

/-- Outcome of EmailClassifier._load_pipeline_assets: success, or the
re-raised FileNotFoundError carrying a message naming the missing file,
or an exception of another class propagating uncaught. -/
inductive LoadOutcome (α : Type) where
  | ok (assets : LoadedAssets α)
  | fileNotFoundError (msg : String)
  | uncaught
deriving DecidableEq

/-- os.path.join with one component. -/
def joinPath (dir f : String) : String := dir ++ "/" ++ f

/-- The four required artifact file names, in the order the source opens
them. -/
def assetFiles : List String :=
  ["spam_vectorizer.pkl", "spam_model.pkl", "multilabel_vectorizer.pkl", "multilabel_model.pkl"]

/-- The message of the FileNotFoundError re-raised at
mail_classifier.py lines 95 to 97: it names the missing file. -/
def assetNotFoundMsg (filename : String) : String :=
  "Required model asset not found: " ++ filename ++
    ". Ensure your model_assets directory exists and contains all four .pkl files."

/-- EmailClassifier._load_pipeline_assets, mail_classifier.py lines 80
to 98: the four files are opened and unpickled in order inside one try
block; the first FileNotFoundError aborts with the naming message, any
other exception propagates uncaught, and only when all four reads
succeed are the four assets stored. -/
def loadPipelineAssets {α : Type} (model_dir : String)
    (read : String → ReadResult α) : LoadOutcome α :=
  match read (joinPath model_dir "spam_vectorizer.pkl") with
  | ReadResult.notFound =>
      LoadOutcome.fileNotFoundError (assetNotFoundMsg (joinPath model_dir "spam_vectorizer.pkl"))
  | ReadResult.readError => LoadOutcome.uncaught
  | ReadResult.found sv =>
    match read (joinPath model_dir "spam_model.pkl") with
    | ReadResult.notFound =>
        LoadOutcome.fileNotFoundError (assetNotFoundMsg (joinPath model_dir "spam_model.pkl"))
    | ReadResult.readError => LoadOutcome.uncaught
    | ReadResult.found sc =>
      match read (joinPath model_dir "multilabel_vectorizer.pkl") with
      | ReadResult.notFound =>
          LoadOutcome.fileNotFoundError
            (assetNotFoundMsg (joinPath model_dir "multilabel_vectorizer.pkl"))
      | ReadResult.readError => LoadOutcome.uncaught
      | ReadResult.found mv =>
        match read (joinPath model_dir "multilabel_model.pkl") with
        | ReadResult.notFound =>
            LoadOutcome.fileNotFoundError
              (assetNotFoundMsg (joinPath model_dir "multilabel_model.pkl"))
        | ReadResult.readError => LoadOutcome.uncaught
        | ReadResult.found mc => LoadOutcome.ok ⟨sv, sc, mv, mc⟩

/-- The error body built at interface.py lines 47 to 49. -/
def startupErrorMsg : String :=
  "Server failed to load machine learning assets on startup."

/-- The Python value the classify_email endpoint function returns,
interface.py lines 41 to 56: the classification result dict, or an
error dict from the except branch at line 56, or — on the
startup-failure path at lines 46 to 49 — the tuple of an error dict
and the number 500, written in Flask style. -/
inductive EndpointReturn where
  | resultDict (r : ClassificationResult)
  | errorDict (body : String)
  | dictStatusTuple (body : String) (status : Nat)
deriving DecidableEq

/-- The classify_email endpoint function, interface.py lines 41 to 56.
The global classifier is None exactly when startup asset loading failed
with FileNotFoundError (interface.py lines 15 to 22).  The except
branch of the endpoint is unreachable in this embedding because the
embedded classify is total. -/
def classify_email {φ χ : Type} (classifier : Option (EmailClassifier φ χ))
    (email_text : String) : EndpointReturn :=
  match classifier with
  | Option.none => EndpointReturn.dictStatusTuple startupErrorMsg 500
  | Option.some c => EndpointReturn.resultDict (c.classify (PyValue.str email_text))

/-- The HTTP response the client receives: a 200 carrying a result
dict, a 200 carrying an error dict, or the framework-generated generic
500 whose body is Internal Server Error and mentions no assets. -/
inductive HttpResponse where
  | okResult (r : ClassificationResult)
  | okError (body : String)
  | internalServerError
deriving DecidableEq

/-- FastAPI handling of the endpoint return value under the
response_model of Dict declared at interface.py line 41, per the
documented framework semantics: a returned dict is serialized with
status 200; a returned tuple is NOT interpreted as a body and a status
— the whole tuple is validated against the response model, a tuple is
not a dict, and the resulting response validation error surfaces as the
generic 500 Internal Server Error. -/
def fastapiRespond : EndpointReturn → HttpResponse
  | EndpointReturn.resultDict r => HttpResponse.okResult r
  | EndpointReturn.errorDict b => HttpResponse.okError b
  | EndpointReturn.dictStatusTuple _ _ => HttpResponse.internalServerError

/-- Whitespace tokenization over the character list, used as a concrete
instance of nltk.word_tokenize: on text already cleaned to lowercase
letters, digits and spaces, word_tokenize coincides with a whitespace
split. -/
def wsTokenizeChars : List Char → List Char → List String
  | [], cur => if cur.isEmpty then [] else [String.mk cur.reverse]
  | c :: cs, cur =>
    if c == ' ' then
      (if cur.isEmpty then [] else [String.mk cur.reverse]) ++ wsTokenizeChars cs []
    else wsTokenizeChars cs (c :: cur)

/-- Whitespace tokenizer over a string. -/
def wsTokenize (s : String) : List String := wsTokenizeChars s.data []

/-- A concrete classifier instance used to exercise the theorems: the
identity lemmatizer, a two-word stopword list, a spam model that flags
any document containing the token winner, and a constant probability
row of length ten. -/
def testClassifier : EmailClassifier Nat Nat :=
  ⟨wsTokenize, fun t => t, ["the", "a"],
   fun ts => if ts.contains "winner" then 1 else 0, fun v => v,
   fun _ => 0,
   fun _ => [mkRat 1 2, mkRat 1 10, mkRat 1 10, mkRat 1 10, mkRat 1 10,
             mkRat 1 10, mkRat 1 10, mkRat 1 10, mkRat 1 10, mkRat 1 10]⟩

/-- The WordNet lemmatizer restricted to the tokens appearing in the
counterexample input: WordNetLemmatizer.lemmatize maps the noun plural
oxen to ox and the noun plural cans to can, and leaves the remaining
tokens of the counterexample unchanged. -/
def cexLemmatize (t : String) : String :=
  if t == "oxen" then "ox" else if t == "cans" then "can" else t

/-- A finite sample of the NLTK English stopword list; every word below
is a member of that list, in particular can. -/
def cexStopwords : List String :=
  ["the", "a", "an", "is", "in", "can", "of", "and"]

/-- A concrete classifier instance whose linguistic resources agree with
the real NLTK ones on the counterexample input. -/
def cexClassifier : EmailClassifier Nat Nat :=
  ⟨wsTokenize, cexLemmatize, cexStopwords,
   fun _ => 0, fun v => v, fun _ => 0, fun _ => List.replicate 10 0⟩

/-- A probability row whose first entry sits exactly on the threshold. -/
def boundaryProbs : List ℚ :=
  [THRESHOLD, 0, 0, 0, 0, 0, 0, 0, 0, 0]

/-- A probability row entirely below the threshold with a tie for the
maximum at indices one and two. -/
def tieProbs : List ℚ :=
  [mkRat 1 10, mkRat 1 5, mkRat 1 5, mkRat 1 10, mkRat 1 10,
   mkRat 1 10, mkRat 1 10, mkRat 1 10, mkRat 1 10, mkRat 1 10]

/-- A filesystem on which every artifact is present and unpickles. -/
def allFoundRead : String → ReadResult Nat := fun _ => ReadResult.found 7

/-- A filesystem on which the spam vectorizer file exists but cannot be
read (for instance a permission failure or a corrupt pickle), while the
other artifacts are fine. -/
def unreadableRead : String → ReadResult Nat := fun f =>
  if f == joinPath "model_assets" "spam_vectorizer.pkl" then ReadResult.readError
  else ReadResult.found 0

/-- The embedded threshold is the rational 0.30 of the source. -/
theorem THRESHOLD_eq : THRESHOLD = 3 / 10 := by
  norm_num [THRESHOLD, Rat.mkRat_eq_div]

/-- The length of the fixed schema. -/
theorem MULTILABEL_CLASSES_length : MULTILABEL_CLASSES.length = 10 := rfl

/-- The schema names are pairwise distinct. -/
theorem MULTILABEL_CLASSES_nodup : MULTILABEL_CLASSES.Nodup := by decide

theorem npArgmax_cons (p : ℚ) (ps : List ℚ) (h : ps ≠ []) :
    npArgmax (p :: ps) =
      if p < ps.getD (npArgmax ps) 0 then npArgmax ps + 1 else 0 := by
  have hne : ps.isEmpty = false := by simpa [List.isEmpty_iff] using h
  show (if ps.isEmpty then 0
        else if p < ps.getD (npArgmax ps) 0 then npArgmax ps + 1 else 0) = _
  rw [hne]
  exact if_neg Bool.false_ne_true

theorem npArgmax_lt_length (l : List ℚ) (h : l ≠ []) : npArgmax l < l.length := by
  induction l with
  | nil => exact absurd rfl h
  | cons p ps ih =>
    by_cases hps : ps = []
    · subst hps; simp [npArgmax]
    · have hlt := ih hps
      rw [npArgmax_cons p ps hps, List.length_cons]
      by_cases hcmp : p < ps.getD (npArgmax ps) 0
      · rw [if_pos hcmp]
        exact Nat.succ_lt_succ hlt
      · rw [if_neg hcmp]
        exact Nat.succ_pos _

theorem npArgmax_getD_le (l : List ℚ) :
    ∀ j, j < l.length → l.getD j 0 ≤ l.getD (npArgmax l) 0 := by
  induction l with
  | nil => intro j hj; exact absurd hj (Nat.not_lt_zero j)
  | cons p ps ih =>
    intro j hj
    by_cases hps : ps = []
    · subst hps
      have hj0 : j = 0 := by simpa using Nat.lt_one_iff.mp (by simpa using hj)
      subst hj0; simp [npArgmax]
    · have hjs : ∀ k, k + 1 < (p :: ps).length → k < ps.length := by
        intro k hk; rw [List.length_cons] at hk; omega
      by_cases hcmp : p < ps.getD (npArgmax ps) 0
      · have harg : npArgmax (p :: ps) = npArgmax ps + 1 := by
          rw [npArgmax_cons p ps hps, if_pos hcmp]
        rw [harg, List.getD_cons_succ]
        cases j with
        | zero => rw [List.getD_cons_zero]; exact le_of_lt hcmp
        | succ k => rw [List.getD_cons_succ]; exact ih k (hjs k hj)
      · have harg : npArgmax (p :: ps) = 0 := by
          rw [npArgmax_cons p ps hps, if_neg hcmp]
        rw [harg, List.getD_cons_zero]
        cases j with
        | zero => rw [List.getD_cons_zero]
        | succ k =>
          rw [List.getD_cons_succ]
          exact le_trans (ih k (hjs k hj)) (not_lt.mp hcmp)

theorem npArgmax_getD_lt (l : List ℚ) :
    ∀ j, j < npArgmax l → l.getD j 0 < l.getD (npArgmax l) 0 := by
  induction l with
  | nil => intro j hj; simp [npArgmax] at hj
  | cons p ps ih =>
    intro j hj
    by_cases hps : ps = []
    · subst hps; simp [npArgmax] at hj
    · by_cases hcmp : p < ps.getD (npArgmax ps) 0
      · have harg : npArgmax (p :: ps) = npArgmax ps + 1 := by
          rw [npArgmax_cons p ps hps, if_pos hcmp]
        rw [harg] at hj
        rw [harg, List.getD_cons_succ]
        cases j with
        | zero => rw [List.getD_cons_zero]; exact hcmp
        | succ k => rw [List.getD_cons_succ]; exact ih k (Nat.lt_of_succ_lt_succ hj)
      · have harg : npArgmax (p :: ps) = 0 := by
          rw [npArgmax_cons p ps hps, if_neg hcmp]
        rw [harg] at hj
        exact absurd hj (Nat.not_lt_zero j)

theorem threshRow_length (probs : List ℚ) : (threshRow probs).length = probs.length :=
  List.length_map _ _

theorem threshRow_mem (probs : List ℚ) : ∀ v ∈ threshRow probs, v = 0 ∨ v = 1 := by
  intro v hv
  rcases List.mem_map.mp hv with ⟨p, _, hvp⟩
  subst hvp
  by_cases h : THRESHOLD ≤ p
  · right; simp [h]
  · left; simp [h]

theorem threshRow_all_zero (probs : List ℚ) (h : ∀ p ∈ probs, p < THRESHOLD) :
    threshRow probs = List.replicate probs.length 0 := by
  induction probs with
  | nil => rfl
  | cons p ps ih =>
    show (if THRESHOLD ≤ p then 1 else 0) :: threshRow ps = List.replicate (ps.length + 1) 0
    rw [List.replicate_succ]
    rw [if_neg (not_le.mpr (h p (List.mem_cons_self p ps)))]
    rw [ih (fun q hq => h q (List.mem_cons_of_mem p hq))]

theorem threshRow_getD_one (probs : List ℚ) (i : Nat) (hi : i < probs.length)
    (hp : THRESHOLD ≤ probs.getD i 0) : (threshRow probs).getD i 0 = 1 := by
  have hi2 : i < (threshRow probs).length := by rw [threshRow_length]; exact hi
  rw [List.getD_eq_getElem _ _ hi2]
  rw [List.getD_eq_getElem _ _ hi] at hp
  simp only [threshRow, List.getElem_map]
  rw [if_pos hp]

theorem nat_sum_zero {l : List Nat} (h : l.sum = 0) : ∀ x ∈ l, x = 0 := by
  induction l with
  | nil => intro x hx; simp at hx
  | cons v vs ih =>
    rw [List.sum_cons] at h
    intro x hx
    rcases List.mem_cons.mp hx with h0 | h0
    · subst h0; omega
    · exact ih (by omega) x h0

theorem labelsFrom_ne_nil (bin : List Nat) : ∀ i, 1 ∈ bin → labelsFrom i bin ≠ [] := by
  induction bin with
  | nil => intro i h; simp at h
  | cons v vs ih =>
    intro i h
    by_cases hv : v = 1
    · simp [labelsFrom, hv]
    · have h1 : 1 ∈ vs := by
        rcases List.mem_cons.mp h with h0 | h0
        · exact absurd h0.symm hv
        · exact h0
      show (if v = 1 then MULTILABEL_CLASSES.getD i "" :: labelsFrom (i + 1) vs
            else labelsFrom (i + 1) vs) ≠ []
      rw [if_neg hv]
      exact ih (i + 1) h1

theorem labelsFrom_mem_of_getD (bin : List Nat) : ∀ i idx, idx < bin.length →
    bin.getD idx 0 = 1 → MULTILABEL_CLASSES.getD (i + idx) "" ∈ labelsFrom i bin := by
  induction bin with
  | nil => intro i idx h; exact absurd h (Nat.not_lt_zero idx)
  | cons v vs ih =>
    intro i idx hlt h1
    cases idx with
    | zero =>
      rw [List.getD_cons_zero] at h1
      show MULTILABEL_CLASSES.getD (i + 0) "" ∈
        (if v = 1 then MULTILABEL_CLASSES.getD i "" :: labelsFrom (i + 1) vs
         else labelsFrom (i + 1) vs)
      rw [if_pos h1]
      simp
    | succ k =>
      rw [List.getD_cons_succ] at h1
      have hk : k < vs.length := by rw [List.length_cons] at hlt; omega
      have hmem := ih (i + 1) k hk h1
      have he : i + (k + 1) = (i + 1) + k := by omega
      rw [he]
      show MULTILABEL_CLASSES.getD ((i + 1) + k) "" ∈
        (if v = 1 then MULTILABEL_CLASSES.getD i "" :: labelsFrom (i + 1) vs
         else labelsFrom (i + 1) vs)
      by_cases hv : v = 1
      · rw [if_pos hv]; exact List.mem_cons_of_mem _ hmem
      · rw [if_neg hv]; exact hmem

theorem labelsFrom_replicate_zero (n : Nat) : ∀ i, labelsFrom i (List.replicate n 0) = [] := by
  induction n with
  | zero => intro i; rfl
  | succ n ih =>
    intro i
    rw [List.replicate_succ]
    show (if (0 : Nat) = 1 then MULTILABEL_CLASSES.getD i "" :: labelsFrom (i + 1) _
          else labelsFrom (i + 1) (List.replicate n 0)) = []
    rw [if_neg (by omega)]
    exact ih (i + 1)

theorem labelsFrom_replicate_set (n : Nat) : ∀ i k, k < n →
    labelsFrom i ((List.replicate n 0).set k 1) = [MULTILABEL_CLASSES.getD (i + k) ""] := by
  induction n with
  | zero => intro i k hk; exact absurd hk (Nat.not_lt_zero k)
  | succ n ih =>
    intro i k hk
    rw [List.replicate_succ]
    cases k with
    | zero =>
      rw [List.set_cons_zero]
      show (if (1 : Nat) = 1 then MULTILABEL_CLASSES.getD i "" :: labelsFrom (i + 1) _
            else labelsFrom (i + 1) (List.replicate n 0)) = _
      rw [if_pos rfl, labelsFrom_replicate_zero n (i + 1)]
      simp
    | succ k =>
      rw [List.set_cons_succ]
      show (if (0 : Nat) = 1 then MULTILABEL_CLASSES.getD i "" :: labelsFrom (i + 1) _
            else labelsFrom (i + 1) ((List.replicate n 0).set k 1)) = _
      rw [if_neg (by omega)]
      rw [ih (i + 1) k (Nat.lt_of_succ_lt_succ hk)]
      have he : (i + 1) + k = i + (k + 1) := by omega
      rw [he]

theorem labelsFrom_sublist (bin : List Nat) : ∀ i, i + bin.length ≤ 10 →
    List.Sublist (labelsFrom i bin) (MULTILABEL_CLASSES.drop i) := by
  induction bin with
  | nil => intro i h; exact List.nil_sublist _
  | cons v vs ih =>
    intro i h
    have hi : i < MULTILABEL_CLASSES.length := by
      rw [MULTILABEL_CLASSES_length]; rw [List.length_cons] at h; omega
    have hd : MULTILABEL_CLASSES.drop i =
        MULTILABEL_CLASSES[i] :: MULTILABEL_CLASSES.drop (i + 1) :=
      List.drop_eq_getElem_cons hi
    have htail := ih (i + 1) (by rw [List.length_cons] at h; omega)
    show List.Sublist
      (if v = 1 then MULTILABEL_CLASSES.getD i "" :: labelsFrom (i + 1) vs
       else labelsFrom (i + 1) vs) (MULTILABEL_CLASSES.drop i)
    by_cases hv : v = 1
    · rw [if_pos hv, hd, List.getD_eq_getElem _ _ hi]
      exact List.Sublist.cons₂ _ htail
    · rw [if_neg hv, hd]
      exact List.sublist_cons_of_sublist _ htail

theorem labelRow_length (probs : List ℚ) : (labelRow probs).length = probs.length := by
  unfold labelRow
  by_cases h : (threshRow probs).sum = 0
  · rw [if_pos h, List.length_set, threshRow_length]
  · rw [if_neg h, threshRow_length]

theorem labelRow_mem_one (probs : List ℚ) (h10 : probs.length = 10) :
    1 ∈ labelRow probs := by
  have hne : probs ≠ [] := by
    intro h; rw [h] at h10; simp at h10
  unfold labelRow
  by_cases h : (threshRow probs).sum = 0
  · rw [if_pos h]
    have hlen : npArgmax probs < ((threshRow probs).set (npArgmax probs) 1).length := by
      rw [List.length_set, threshRow_length]
      exact npArgmax_lt_length probs hne
    have hmem := List.getElem_mem hlen
    rw [List.getElem_set_self hlen] at hmem
    exact hmem
  · rw [if_neg h]
    have : ∃ v ∈ threshRow probs, v ≠ 0 := by
      by_contra hall
      push_neg at hall
      exact h (List.sum_eq_zero hall)
    rcases this with ⟨v, hv, hv0⟩
    rcases threshRow_mem probs v hv with h0 | h1
    · exact absurd h0 hv0
    · rw [← h1]; exact hv

theorem predictedLabels_ne_nil (probs : List ℚ) (h10 : probs.length = 10) :
    predictedLabels probs ≠ [] :=
  labelsFrom_ne_nil (labelRow probs) 0 (labelRow_mem_one probs h10)

/-- Claim C1: for every input, the detailed labels of classify are empty
exactly when the primary classification is Spam; in particular every
No-Spam result carries at least one label, by the fallback.  The
hypothesis states the model contract that a probability row always has
the ten schema entries. -/
theorem classify_labels_empty_iff_spam {φ χ : Type} (c : EmailClassifier φ χ)
    (hwf : ∀ v : χ, (c.ml_clf_proba v).length = 10) (x : PyValue) :
    (c.classify x).detailed_labels = [] ↔
      (c.classify x).primary_classification = "Spam" := by
  unfold EmailClassifier.classify
  by_cases h : c.spam_clf (c.spam_vec (c.preprocessEmail x)) = 1
  · rw [if_pos h]
    simp
  · rw [if_neg h]
    show predictedLabels _ = [] ↔ "No-Spam" = "Spam"
    constructor
    · intro hnil
      exact absurd hnil (predictedLabels_ne_nil _ (hwf _))
    · intro hs
      exact absurd hs (by decide)

/-- Claim C1, instantiated at a concrete classifier and input. -/
theorem classify_labels_empty_iff_spam_witness :
    (testClassifier.classify (PyValue.str "hello")).detailed_labels = [] ↔
      (testClassifier.classify (PyValue.str "hello")).primary_classification = "Spam" :=
  classify_labels_empty_iff_spam testClassifier (fun _ => rfl) (PyValue.str "hello")

/-- Claim C2: a category whose probability is exactly the threshold 0.30
is included in the label set: the comparison of the thresholding step is
inclusive. -/
theorem threshold_boundary_included (probs : List ℚ) (i : Nat)
    (hi : i < probs.length) (hp : probs.getD i 0 = THRESHOLD) :
    MULTILABEL_CLASSES.getD i "" ∈ predictedLabels probs := by
  have h1 : (threshRow probs).getD i 0 = 1 :=
    threshRow_getD_one probs i hi (le_of_eq hp.symm)
  have hi2 : i < (threshRow probs).length := by rw [threshRow_length]; exact hi
  have hg : (threshRow probs).getD i 0 = (threshRow probs)[i] :=
    List.getD_eq_getElem _ _ hi2
  have hmem1 := List.getElem_mem hi2
  rw [← hg, h1] at hmem1
  have hsum : (threshRow probs).sum ≠ 0 := by
    intro h0
    exact absurd (nat_sum_zero h0 1 hmem1) one_ne_zero
  unfold predictedLabels labelRow
  rw [if_neg hsum]
  have hfin := labelsFrom_mem_of_getD (threshRow probs) 0 i hi2 h1
  simpa using hfin

/-- Claim C2 instantiated at a row whose first probability is exactly
the threshold. -/
theorem threshold_boundary_included_witness :
    MULTILABEL_CLASSES.getD 0 "" ∈ predictedLabels boundaryProbs :=
  threshold_boundary_included boundaryProbs 0 (by decide) rfl

/-- Claim C3: when no probability reaches the threshold, the fallback
produces exactly one label, the one at an index carrying the maximum
probability such that every earlier index carries a strictly smaller
probability — the first occurrence of the maximum in schema order. -/
theorem fallback_selects_first_max (probs : List ℚ) (h10 : probs.length = 10)
    (hbelow : ∀ p ∈ probs, p < THRESHOLD) :
    ∃ k, k < 10 ∧ predictedLabels probs = [MULTILABEL_CLASSES.getD k ""] ∧
      (∀ j, j < 10 → probs.getD j 0 ≤ probs.getD k 0) ∧
      (∀ j, j < k → probs.getD j 0 < probs.getD k 0) := by
  have hne : probs ≠ [] := by intro h; rw [h] at h10; simp at h10
  have hk10 : npArgmax probs < 10 := by
    have hl := npArgmax_lt_length probs hne
    rw [h10] at hl
    exact hl
  refine ⟨npArgmax probs, hk10, ?_, ?_, ?_⟩
  · unfold predictedLabels labelRow
    rw [threshRow_all_zero probs hbelow, h10]
    rw [if_pos (by simp)]
    have hset := labelsFrom_replicate_set 10 0 (npArgmax probs) hk10
    simpa using hset
  · intro j hj
    exact npArgmax_getD_le probs j (by rw [h10]; exact hj)
  · intro j hj
    exact npArgmax_getD_lt probs j hj

/-- Claim C3 instantiated at a row below the threshold with a tie for
the maximum at indices one and two. -/
theorem fallback_selects_first_max_witness :
    ∃ k, k < 10 ∧ predictedLabels tieProbs = [MULTILABEL_CLASSES.getD k ""] ∧
      (∀ j, j < 10 → tieProbs.getD j 0 ≤ tieProbs.getD k 0) ∧
      (∀ j, j < k → tieProbs.getD j 0 < tieProbs.getD k 0) :=
  fallback_selects_first_max tieProbs rfl (by decide)

/-- Claim C9: classify is deterministic — two results obtained from the
same classifier (the same immutable assets) and the same input are
equal.  The embedded classify is a pure function, mirroring the absence
of mutable state and randomness in the source pipeline. -/
theorem classify_deterministic {φ χ : Type} (c : EmailClassifier φ χ) (x : PyValue)
    (r1 r2 : ClassificationResult) (h1 : r1 = c.classify x) (h2 : r2 = c.classify x) :
    r1 = r2 :=
  h1.trans h2.symm

/-- Claim C9 instantiated at a concrete classifier and input. -/
theorem classify_deterministic_witness :
    testClassifier.classify (PyValue.str "hello") =
      testClassifier.classify (PyValue.str "hello") :=
  classify_deterministic testClassifier (PyValue.str "hello") _ _ rfl rfl

/-- Claim C10: the detailed labels of a No-Spam result form a sublist of
the fixed schema list: no duplicates, every entry a schema name, and
entries appearing in schema order. -/
theorem classify_labels_schema {φ χ : Type} (c : EmailClassifier φ χ)
    (hwf : ∀ v : χ, (c.ml_clf_proba v).length = 10) (x : PyValue)
    (_hns : (c.classify x).primary_classification = "No-Spam") :
    List.Sublist (c.classify x).detailed_labels MULTILABEL_CLASSES ∧
    (c.classify x).detailed_labels.Nodup ∧
    ∀ s ∈ (c.classify x).detailed_labels, s ∈ MULTILABEL_CLASSES := by
  have hsub : List.Sublist (c.classify x).detailed_labels MULTILABEL_CLASSES := by
    unfold EmailClassifier.classify
    by_cases h : c.spam_clf (c.spam_vec (c.preprocessEmail x)) = 1
    · rw [if_pos h]
      exact List.nil_sublist _
    · rw [if_neg h]
      show List.Sublist (predictedLabels _) MULTILABEL_CLASSES
      unfold predictedLabels
      have h0 := labelsFrom_sublist
        (labelRow (c.ml_clf_proba (c.ml_vec (c.preprocessEmail x)))) 0
        (by rw [labelRow_length, hwf])
      simpa using h0
  exact ⟨hsub, List.Nodup.sublist hsub MULTILABEL_CLASSES_nodup,
    fun s hs => hsub.subset hs⟩

/-- Claim C10 instantiated at a concrete classifier and input. -/
theorem classify_labels_schema_witness :
    List.Sublist (testClassifier.classify (PyValue.str "hello")).detailed_labels
      MULTILABEL_CLASSES ∧
    (testClassifier.classify (PyValue.str "hello")).detailed_labels.Nodup ∧
    ∀ s ∈ (testClassifier.classify (PyValue.str "hello")).detailed_labels,
      s ∈ MULTILABEL_CLASSES :=
  classify_labels_schema testClassifier (fun _ => rfl) (PyValue.str "hello") (by decide)

/-- Claim C4, as stated, is false on the code: the stopword and length
filters run before lemmatization, and a WordNet lemma can be shorter
than three characters or be a stopword.  On the input below, with
linguistic resources matching the real NLTK ones on the occurring
tokens, the output contains the token ox of length two and the token
can, a member of the stopword list in use. -/
theorem preprocess_counterexample :
    cexClassifier.preprocessEmail (PyValue.str "the oxen in cans") = ["ox", "can"] ∧
    ("ox").length = 2 ∧ "can" ∈ cexClassifier.stop_words := by
  refine ⟨by decide, rfl, by decide⟩

/-- Claim C4 as amended: preprocess is deterministic, and the lowercase,
length and stopword guarantees hold of the tokens at the filtering
stage, before lemmatization — every output token is the lemmatizer
image of a token of the cleaned lowercase text that is not a stopword
and is longer than two characters, and the cleaned lowercase text
itself contains only lowercase letters, digits and whitespace.  The
final tokens need not keep the length and stopword properties, by the
counterexample. -/
theorem preprocess_amended {φ χ : Type} (c : EmailClassifier φ χ) (s : String) :
    (∀ r1 r2 : List String, r1 = c.preprocessEmail (PyValue.str s) →
      r2 = c.preprocessEmail (PyValue.str s) → r1 = r2) ∧
    (∀ tok ∈ c.preprocessEmail (PyValue.str s),
      ∃ pre, pre ∈ c.tokenize (cleanText (pyLowerStr s)) ∧
        tok = c.lemmatize pre ∧ ¬ pre ∈ c.stop_words ∧ 2 < pre.length) ∧
    (∀ ch ∈ (cleanText (pyLowerStr s)).data,
      ('a' ≤ ch ∧ ch ≤ 'z') ∨ ('0' ≤ ch ∧ ch ≤ '9') ∨ isPySpace ch = true) := by
  refine ⟨fun r1 r2 h1 h2 => h1.trans h2.symm, ?_, ?_⟩
  · intro tok htok
    have htok2 : tok ∈ ((c.tokenize (cleanText (pyLowerStr s))).filter
        (fun t => decide (¬ t ∈ c.stop_words ∧ 2 < t.length))).map c.lemmatize := htok
    rcases List.mem_map.mp htok2 with ⟨pre, hpre, heq⟩
    rcases List.mem_filter.mp hpre with ⟨hmem, hdec⟩
    rcases of_decide_eq_true hdec with ⟨hsw, hlen⟩
    exact ⟨pre, hmem, heq.symm, hsw, hlen⟩
  · intro ch hch
    have hch2 : ch ∈ (pyLowerStr s).data.map cleanChar := hch
    rcases List.mem_map.mp hch2 with ⟨c0, _, heq⟩
    subst heq
    unfold cleanChar
    split
    · assumption
    · right; right; decide

/-- The amended claim C4, instantiated at a concrete classifier and
input, for the token hello of the output. -/
theorem preprocess_amended_witness :
    ∃ pre, pre ∈ testClassifier.tokenize (cleanText (pyLowerStr "Hello World")) ∧
      "hello" = testClassifier.lemmatize pre ∧
      ¬ pre ∈ testClassifier.stop_words ∧ 2 < pre.length :=
  (preprocess_amended testClassifier "Hello World").2.1 "hello" (by decide)

/-- Claim C5: a non-string input yields the empty token sequence; the
embedded preprocessing is a total function, so no error is raised. -/
theorem preprocess_nonstring_empty {φ χ : Type} (c : EmailClassifier φ χ)
    (v : PyValue) (h : v.isStr = false) : c.preprocessEmail v = [] := by
  cases v with
  | str s => simp [PyValue.isStr] at h
  | int n => rfl
  | none => rfl
  | list l => rfl

/-- Claim C5 instantiated at a concrete non-string value. -/
theorem preprocess_nonstring_empty_witness :
    testClassifier.preprocessEmail (PyValue.int 3) = [] :=
  preprocess_nonstring_empty testClassifier (PyValue.int 3) rfl

/-- Claim C6, as stated, is false on the code: an artifact that exists
but cannot be read (permission failure, corrupt pickle) raises an
exception that is not FileNotFoundError, so the except branch does not
run and the propagated failure does not carry the artifact-naming
message. -/
theorem load_assets_counterexample :
    unreadableRead (joinPath "model_assets" "spam_vectorizer.pkl") = ReadResult.readError ∧
    loadPipelineAssets "model_assets" unreadableRead = LoadOutcome.uncaught ∧
    ∀ msg, loadPipelineAssets "model_assets" unreadableRead ≠
      LoadOutcome.fileNotFoundError msg := by
  refine ⟨rfl, rfl, ?_⟩
  intro msg h
  rw [show loadPipelineAssets "model_assets" unreadableRead = LoadOutcome.uncaught
    from rfl] at h
  exact LoadOutcome.noConfusion h

/-- Claim C6 as amended: if all four artifacts are found, loading
succeeds and the returned handle holds exactly the four read assets (no
partially loaded success state); every naming failure names an artifact
that is indeed absent, with the message built from its path; if any
artifact is absent or unreadable, loading never succeeds; and whenever
some artifact is absent and none is unreadable, loading fails with the
FileNotFoundError whose message names an absent artifact. -/
theorem load_assets_amended {α : Type} (model_dir : String)
    (read : String → ReadResult α) :
    ((∀ f ∈ assetFiles, ∃ a, read (joinPath model_dir f) = ReadResult.found a) →
      ∃ assets, loadPipelineAssets model_dir read = LoadOutcome.ok assets ∧
        read (joinPath model_dir "spam_vectorizer.pkl") = ReadResult.found assets.spam_vec ∧
        read (joinPath model_dir "spam_model.pkl") = ReadResult.found assets.spam_clf ∧
        read (joinPath model_dir "multilabel_vectorizer.pkl") = ReadResult.found assets.ml_vec ∧
        read (joinPath model_dir "multilabel_model.pkl") = ReadResult.found assets.ml_clf) ∧
    (∀ msg, loadPipelineAssets model_dir read = LoadOutcome.fileNotFoundError msg →
      ∃ f ∈ assetFiles, read (joinPath model_dir f) = ReadResult.notFound ∧
        msg = assetNotFoundMsg (joinPath model_dir f)) ∧
    ((∃ f ∈ assetFiles, ∀ a, read (joinPath model_dir f) ≠ ReadResult.found a) →
      ∀ assets, loadPipelineAssets model_dir read ≠ LoadOutcome.ok assets) ∧
    ((∀ f ∈ assetFiles, read (joinPath model_dir f) ≠ ReadResult.readError) →
      (∃ f ∈ assetFiles, read (joinPath model_dir f) = ReadResult.notFound) →
      ∃ g ∈ assetFiles, read (joinPath model_dir g) = ReadResult.notFound ∧
        loadPipelineAssets model_dir read =
          LoadOutcome.fileNotFoundError (assetNotFoundMsg (joinPath model_dir g))) := by
  refine ⟨?_, ?_, ?_, ?_⟩
  · intro hall
    obtain ⟨a1, e1⟩ := hall "spam_vectorizer.pkl" (by simp [assetFiles])
    obtain ⟨a2, e2⟩ := hall "spam_model.pkl" (by simp [assetFiles])
    obtain ⟨a3, e3⟩ := hall "multilabel_vectorizer.pkl" (by simp [assetFiles])
    obtain ⟨a4, e4⟩ := hall "multilabel_model.pkl" (by simp [assetFiles])
    refine ⟨⟨a1, a2, a3, a4⟩, ?_, e1, e2, e3, e4⟩
    unfold loadPipelineAssets
    rw [e1, e2, e3, e4]
  · intro msg hmsg
    unfold loadPipelineAssets at hmsg
    cases e1 : read (joinPath model_dir "spam_vectorizer.pkl") with
    | notFound =>
      rw [e1] at hmsg
      exact ⟨"spam_vectorizer.pkl", by simp [assetFiles], e1,
        (LoadOutcome.fileNotFoundError.inj hmsg).symm⟩
    | readError => rw [e1] at hmsg; exact absurd hmsg (by simp)
    | found a1 =>
      rw [e1] at hmsg
      cases e2 : read (joinPath model_dir "spam_model.pkl") with
      | notFound =>
        rw [e2] at hmsg
        exact ⟨"spam_model.pkl", by simp [assetFiles], e2,
          (LoadOutcome.fileNotFoundError.inj hmsg).symm⟩
      | readError => rw [e2] at hmsg; exact absurd hmsg (by simp)
      | found a2 =>
        rw [e2] at hmsg
        cases e3 : read (joinPath model_dir "multilabel_vectorizer.pkl") with
        | notFound =>
          rw [e3] at hmsg
          exact ⟨"multilabel_vectorizer.pkl", by simp [assetFiles], e3,
            (LoadOutcome.fileNotFoundError.inj hmsg).symm⟩
        | readError => rw [e3] at hmsg; exact absurd hmsg (by simp)
        | found a3 =>
          rw [e3] at hmsg
          cases e4 : read (joinPath model_dir "multilabel_model.pkl") with
          | notFound =>
            rw [e4] at hmsg
            exact ⟨"multilabel_model.pkl", by simp [assetFiles], e4,
              (LoadOutcome.fileNotFoundError.inj hmsg).symm⟩
          | readError => rw [e4] at hmsg; exact absurd hmsg (by simp)
          | found a4 => rw [e4] at hmsg; exact absurd hmsg (by simp)
  · rintro ⟨f, hf, hnf⟩ assets heq
    unfold loadPipelineAssets at heq
    cases e1 : read (joinPath model_dir "spam_vectorizer.pkl") with
    | notFound => rw [e1] at heq; exact absurd heq (by simp)
    | readError => rw [e1] at heq; exact absurd heq (by simp)
    | found a1 =>
      rw [e1] at heq
      cases e2 : read (joinPath model_dir "spam_model.pkl") with
      | notFound => rw [e2] at heq; exact absurd heq (by simp)
      | readError => rw [e2] at heq; exact absurd heq (by simp)
      | found a2 =>
        rw [e2] at heq
        cases e3 : read (joinPath model_dir "multilabel_vectorizer.pkl") with
        | notFound => rw [e3] at heq; exact absurd heq (by simp)
        | readError => rw [e3] at heq; exact absurd heq (by simp)
        | found a3 =>
          rw [e3] at heq
          cases e4 : read (joinPath model_dir "multilabel_model.pkl") with
          | notFound => rw [e4] at heq; exact absurd heq (by simp)
          | readError => rw [e4] at heq; exact absurd heq (by simp)
          | found a4 =>
            simp only [assetFiles, List.mem_cons, List.not_mem_nil, or_false] at hf
            rcases hf with rfl | rfl | rfl | rfl
            · exact hnf a1 e1
            · exact hnf a2 e2
            · exact hnf a3 e3
            · exact hnf a4 e4
  · intro hnoerr hmiss
    cases e1 : read (joinPath model_dir "spam_vectorizer.pkl") with
    | notFound =>
      refine ⟨"spam_vectorizer.pkl", by simp [assetFiles], e1, ?_⟩
      unfold loadPipelineAssets
      rw [e1]
    | readError =>
      exact absurd e1 (hnoerr "spam_vectorizer.pkl" (by simp [assetFiles]))
    | found a1 =>
      cases e2 : read (joinPath model_dir "spam_model.pkl") with
      | notFound =>
        refine ⟨"spam_model.pkl", by simp [assetFiles], e2, ?_⟩
        unfold loadPipelineAssets
        rw [e1, e2]
      | readError =>
        exact absurd e2 (hnoerr "spam_model.pkl" (by simp [assetFiles]))
      | found a2 =>
        cases e3 : read (joinPath model_dir "multilabel_vectorizer.pkl") with
        | notFound =>
          refine ⟨"multilabel_vectorizer.pkl", by simp [assetFiles], e3, ?_⟩
          unfold loadPipelineAssets
          rw [e1, e2, e3]
        | readError =>
          exact absurd e3 (hnoerr "multilabel_vectorizer.pkl" (by simp [assetFiles]))
        | found a3 =>
          cases e4 : read (joinPath model_dir "multilabel_model.pkl") with
          | notFound =>
            refine ⟨"multilabel_model.pkl", by simp [assetFiles], e4, ?_⟩
            unfold loadPipelineAssets
            rw [e1, e2, e3, e4]
          | readError =>
            exact absurd e4 (hnoerr "multilabel_model.pkl" (by simp [assetFiles]))
          | found a4 =>
            obtain ⟨f, hf, hnfd⟩ := hmiss
            simp only [assetFiles, List.mem_cons, List.not_mem_nil, or_false] at hf
            rcases hf with rfl | rfl | rfl | rfl
            · rw [e1] at hnfd; exact ReadResult.noConfusion hnfd
            · rw [e2] at hnfd; exact ReadResult.noConfusion hnfd
            · rw [e3] at hnfd; exact ReadResult.noConfusion hnfd
            · rw [e4] at hnfd; exact ReadResult.noConfusion hnfd

/-- The amended claim C6, instantiated at a filesystem holding all four
artifacts. -/
theorem load_assets_amended_witness :
    ∃ assets, loadPipelineAssets "model_assets" allFoundRead = LoadOutcome.ok assets ∧
      allFoundRead (joinPath "model_assets" "spam_vectorizer.pkl") =
        ReadResult.found assets.spam_vec ∧
      allFoundRead (joinPath "model_assets" "spam_model.pkl") =
        ReadResult.found assets.spam_clf ∧
      allFoundRead (joinPath "model_assets" "multilabel_vectorizer.pkl") =
        ReadResult.found assets.ml_vec ∧
      allFoundRead (joinPath "model_assets" "multilabel_model.pkl") =
        ReadResult.found assets.ml_clf :=
  (load_assets_amended "model_assets" allFoundRead).1 (fun _ _ => ⟨7, rfl⟩)

/-- Claim C7: when the spam stage decides Spam, classify returns the
Spam result with no labels immediately, and the result is independent
of the topic vectorizer and topic model — the multilabel stage is never
consulted, even across different topic feature types. -/
theorem classify_spam_short_circuit {φ χ1 χ2 : Type} (tk : String → List String)
    (lm : String → String) (sw : List String) (sv : List String → φ) (sc : φ → Nat)
    (mv1 : List String → χ1) (mp1 : χ1 → List ℚ)
    (mv2 : List String → χ2) (mp2 : χ2 → List ℚ) (x : PyValue)
    (h : sc (sv (EmailClassifier.preprocessEmail ⟨tk, lm, sw, sv, sc, mv1, mp1⟩ x)) = 1) :
    EmailClassifier.classify ⟨tk, lm, sw, sv, sc, mv1, mp1⟩ x = ⟨"Spam", []⟩ ∧
    EmailClassifier.classify ⟨tk, lm, sw, sv, sc, mv1, mp1⟩ x =
      EmailClassifier.classify ⟨tk, lm, sw, sv, sc, mv2, mp2⟩ x := by
  have hpre : EmailClassifier.preprocessEmail
      (⟨tk, lm, sw, sv, sc, mv2, mp2⟩ : EmailClassifier φ χ2) x =
      EmailClassifier.preprocessEmail
      (⟨tk, lm, sw, sv, sc, mv1, mp1⟩ : EmailClassifier φ χ1) x := rfl
  have h2 : sc (sv (EmailClassifier.preprocessEmail
      (⟨tk, lm, sw, sv, sc, mv2, mp2⟩ : EmailClassifier φ χ2) x)) = 1 := by
    rw [hpre]; exact h
  constructor
  · unfold EmailClassifier.classify
    rw [if_pos h]
  · unfold EmailClassifier.classify
    rw [if_pos h, if_pos h2]

/-- Claim C7 instantiated at a classifier whose spam model always
answers one, with two different topic stages. -/
theorem classify_spam_short_circuit_witness :
    EmailClassifier.classify
      (⟨wsTokenize, fun t => t, [], fun ts => ts.length, fun _ => 1,
        fun _ => (0 : Nat), fun _ => List.replicate 10 0⟩ : EmailClassifier Nat Nat)
      (PyValue.str "any text") = ⟨"Spam", []⟩ ∧
    EmailClassifier.classify
      (⟨wsTokenize, fun t => t, [], fun ts => ts.length, fun _ => 1,
        fun _ => (0 : Nat), fun _ => List.replicate 10 0⟩ : EmailClassifier Nat Nat)
      (PyValue.str "any text") =
    EmailClassifier.classify
      (⟨wsTokenize, fun t => t, [], fun ts => ts.length, fun _ => 1,
        fun _ => ([] : List ℚ), fun ps => ps⟩ : EmailClassifier Nat (List ℚ))
      (PyValue.str "any text") :=
  classify_spam_short_circuit wsTokenize (fun t => t) [] (fun ts => ts.length)
    (fun _ => 1) (fun _ => (0 : Nat)) (fun _ => List.replicate 10 0)
    (fun _ => ([] : List ℚ)) (fun ps => ps) (PyValue.str "any text") rfl

/-- Claim C8 states the evident intent, but the code is a slip: on the
startup-failure path the endpoint function builds the
assets-unavailable body together with the number 500 as a Flask-style
tuple return; FastAPI does not honor such a tuple as a body plus a
status, and under the declared Dict response model the tuple fails
response validation, so the client receives the generic internal
server error and never a response carrying the assets-unavailable
message. -/
theorem endpoint_startup_failure_bug :
    classify_email (Option.none : Option (EmailClassifier Nat Nat)) "hello" =
      EndpointReturn.dictStatusTuple startupErrorMsg 500 ∧
    fastapiRespond
      (classify_email (Option.none : Option (EmailClassifier Nat Nat)) "hello") =
      HttpResponse.internalServerError ∧
    ∀ body, fastapiRespond
      (classify_email (Option.none : Option (EmailClassifier Nat Nat)) "hello") ≠
      HttpResponse.okError body := by
  refine ⟨rfl, rfl, ?_⟩
  intro body h
  exact HttpResponse.noConfusion h

end Mailsense
